import Mathlib

/-!
Verification development for the tinkerbell/dhcp DHCPv4 netboot server.

The definitions below are a shallow embedding of the request-handling
pipeline: the netboot-client classifier (`isNetbootClient`), the
architecture dispatch (`archOf`, `archToBootFile`), the chainload decider
(`bootfileAndNextServer`, `setNetworkBootOpts`), the option builder
(`setDHCPOpts`), the reply assembly (`updateMsg`) and the message-type
dispatcher (`handleFunc`), together with the binary traceparent encoder
(`binaryTp`).  Each definition's doc comment names the Go source it embeds.
-/

/-- An IPv4 address as four octets (Go `net.IP` restricted to IPv4, and
`netaddr.IP`; `none` at use sites stands for a nil / zero-value IP). -/
structure IPv4 where
  o1 : Nat
  o2 : Nat
  o3 : Nat
  o4 : Nat
deriving DecidableEq, Repr

/-- The all-zeroes address `0.0.0.0` (Go `net.IPv4(0, 0, 0, 0)`). -/
def ip0 : IPv4 := ⟨0, 0, 0, 0⟩

/-- Dotted-quad rendering, as Go `net.IP.String()` for IPv4 addresses. -/
def IPv4.str (ip : IPv4) : String :=
  toString ip.o1 ++ "." ++ toString ip.o2 ++ "." ++ toString ip.o3 ++ "." ++ toString ip.o4

/-- An IP and port (Go `netaddr.IPPort`). -/
structure IPPort where
  ip : IPv4
  port : Nat
deriving DecidableEq, Repr

/-- Rendering of an IP:port pair, as Go `netaddr.IPPort.String()`. -/
def IPPort.str (p : IPPort) : String := p.ip.str ++ ":" ++ toString p.port

/-- A parsed URL (Go `*url.URL`) restricted to the two accessors the code
uses: `String()` (the full URL text) and `.Host` (the host[:port] part). -/
structure UrlRec where
  str : String
  host : String
deriving DecidableEq, Repr

/-- Go `strings.HasPrefix s pre`, on the character sequences of the two
strings. -/
def strStarts (s pre : String) : Bool := pre.data.isPrefixOf s.data

/-- Splits a character list on every dot, as Go `net.ParseIP` walks the
dotted-quad form. -/
def splitOnDotAux : List Char → List Char → List (List Char)
  | [], acc => [acc.reverse]
  | c :: rest, acc =>
    if c = '.' then acc.reverse :: splitOnDotAux rest []
    else splitOnDotAux rest (c :: acc)

/-- Decimal value of a digit run; `none` on any non-digit character. -/
def decDigitsAux : List Char → Nat → Option Nat
  | [], n => some n
  | c :: rest, n => if c.isDigit then decDigitsAux rest (n * 10 + (c.toNat - 48)) else none

/-- One decimal field of a dotted-quad address: models how Go
`net.ParseIP` treats a single IPv4 component (non-empty, digits only,
value at most 255, no leading zeros). -/
def parseIPv4Field (l : List Char) : Option Nat :=
  match l with
  | [] => none
  | c0 :: _ =>
    match decDigitsAux l 0 with
    | none => none
    | some n => if n ≤ 255 ∧ (l.length = 1 ∨ c0 ≠ '0') then some n else none

/-- Models Go `net.ParseIP` on the IPv4 dotted-quad forms relevant to this
DHCPv4 server: four dot-separated decimal fields.  Any other string
(including host:port strings and IPv6 literals) yields `none`, matching
`net.ParseIP` returning nil for non-address strings. -/
def parseIPv4 (s : String) : Option IPv4 :=
  match splitOnDotAux s.data [] with
  | [a, b, c, d] =>
    match parseIPv4Field a, parseIPv4Field b, parseIPv4Field c, parseIPv4Field d with
    | some w, some x, some y, some z => some ⟨w, x, y, z⟩
    | _, _, _, _ => none
  | _ => none

/-- DHCP message type codes (RFC 2131): `dhcpv4.MessageTypeDiscover`. -/
def msgDiscover : Nat := 1

/-- `dhcpv4.MessageTypeOffer`. -/
def msgOffer : Nat := 2

/-- `dhcpv4.MessageTypeRequest`. -/
def msgRequest : Nat := 3

/-- `dhcpv4.MessageTypeAck`. -/
def msgAck : Nat := 5

/-- `dhcpv4.MessageTypeRelease`. -/
def msgRelease : Nat := 7

/-- An incoming DHCPv4 request, restricted to the header and options the
handler inspects: message type (option 53), option 60 (class identifier),
option 77 (user class), option 93 (client system architecture, parsed to a
list of 16-bit codes), option 94 (client network interface identifier) and
option 97 (client machine identifier).  `none` models an absent option
(`Options.Has` false / `GetOneOption` returning nil). -/
structure DhcpRequest where
  messageType : Nat
  opt60 : Option String
  opt77 : Option String
  opt93 : Option (List Nat)
  opt94 : Option (List Nat)
  opt97 : Option (List Nat)
deriving DecidableEq, Repr

/-- The backend's DHCP record (`data.DHCP` in src/data/data.go).  The
`netaddr.IP` fields `DefaultGateway` and `BroadcastAddress` are `Option`s:
`none` models the zero `netaddr.IP` (for which `IsZero()` is true). -/
structure DhcpRec where
  macAddress : List Nat
  ipAddress : IPv4
  subnetMask : List Nat
  defaultGateway : Option IPv4
  nameServers : List IPv4
  hostname : String
  domainName : String
  broadcastAddress : Option IPv4
  ntpServers : List IPv4
  leaseTime : Nat
  domainSearch : List String
deriving DecidableEq, Repr

/-- The backend's netboot record (`data.Netboot` in src/data/data.go):
`AllowNetboot` and the per-client `IPXEScriptURL` (nil modelled by
`none`). -/
structure NetbootRec where
  allowNetboot : Bool
  ipxeScriptURL : Option UrlRec
deriving DecidableEq, Repr

/-- An OpenTelemetry span context as the code reads it
(`trace.SpanContextFromContext`): a 16-byte trace id, an 8-byte span id
and the sampled flag.  The fixed-size Go arrays `[16]byte` / `[8]byte` are
modelled as functions from `Fin`. -/
structure SpanCtx where
  traceID : Fin 16 → Nat
  spanID : Fin 8 → Nat
  sampled : Bool

/-- The span context of a context with no active span: zero ids, not
sampled. -/
def zeroSpanCtx : SpanCtx := ⟨fun _ => 0, fun _ => 0, false⟩

/-- The server configuration (`Server` in src/dhcp.go): the option-54 /
siaddr address `IPAddr`, the listen address `Listener`, the TFTP and HTTP
iPXE binary servers, the default iPXE script URL, the netboot toggle, the
custom user class and the OTEL toggle. -/
structure ServerCfg where
  ipAddr : IPv4
  listener : IPPort
  ipxeBinServerTFTP : IPPort
  ipxeBinServerHTTP : UrlRec
  ipxeScriptURL : Option UrlRec
  netbootEnabled : Bool
  userClass : String
  otelEnabled : Bool
deriving DecidableEq, Repr

/-- The reply under construction (`*dhcpv4.DHCPv4` built by
`NewReplyFromRequest`), restricted to the headers and options the handler
writes: option 53, option 54, siaddr, yiaddr, the boot file name, option
60, option 43 (as its two sub-options 6 and 69) and the `DhcpRec` options
1, 3, 6, 12, 15, 28, 42, 51, 119. -/
structure DhcpReply where
  opt53 : Option Nat
  opt54 : Option IPv4
  siaddr : Option IPv4
  yiaddr : Option IPv4
  bootFileName : String
  opt60 : Option String
  opt43 : Option (List Nat × List Nat)
  opt1 : Option (List Nat)
  opt3 : Option IPv4
  opt6 : Option (List IPv4)
  opt12 : Option String
  opt15 : Option String
  opt28 : Option IPv4
  opt42 : Option (List IPv4)
  opt51 : Option Nat
  opt119 : Option (List String)
deriving DecidableEq, Repr

/-- The fresh reply skeleton produced by `dhcpv4.NewReplyFromRequest`
before any modifier runs: no options set, empty boot file name. -/
def emptyReply : DhcpReply :=
  ⟨none, none, none, none, "", none, none, none, none, none, none, none, none, none, none, none⟩

/-- `dhcpv4.WithMessageType`: sets option 53. -/
def withMessageType (t : Nat) (r : DhcpReply) : DhcpReply := { r with opt53 := some t }

/-- `dhcpv4.WithGeneric(dhcpv4.OptionServerIdentifier, ip)`: sets option 54. -/
def withServerIdentifier (ip : IPv4) (r : DhcpReply) : DhcpReply := { r with opt54 := some ip }

/-- `dhcpv4.WithServerIP`: sets the siaddr header. -/
def withServerIP (ip : IPv4) (r : DhcpReply) : DhcpReply := { r with siaddr := some ip }

/-- `dhcpv4.WithYourIP`: sets the yiaddr header. -/
def withYourIP (ip : IPv4) (r : DhcpReply) : DhcpReply := { r with yiaddr := some ip }

/-- `dhcpv4.WithLeaseTime`: sets option 51. -/
def withLeaseTime (t : Nat) (r : DhcpReply) : DhcpReply := { r with opt51 := some t }

/-- `dhcpv4.WithDNS`: sets option 6. -/
def withDNS (l : List IPv4) (r : DhcpReply) : DhcpReply := { r with opt6 := some l }

/-- `dhcpv4.WithDomainSearchList`: sets option 119. -/
def withDomainSearchList (l : List String) (r : DhcpReply) : DhcpReply := { r with opt119 := some l }

/-- `dhcpv4.WithOption(dhcpv4.OptNTPServers(...))`: sets option 42. -/
def withNTPServers (l : List IPv4) (r : DhcpReply) : DhcpReply := { r with opt42 := some l }

/-- `dhcpv4.WithGeneric(dhcpv4.OptionBroadcastAddress, ip)`: sets option 28. -/
def withBroadcastAddress (ip : IPv4) (r : DhcpReply) : DhcpReply := { r with opt28 := some ip }

/-- `dhcpv4.WithGeneric(dhcpv4.OptionDomainName, s)`: sets option 15. -/
def withDomainName (s : String) (r : DhcpReply) : DhcpReply := { r with opt15 := some s }

/-- `dhcpv4.WithGeneric(dhcpv4.OptionHostName, s)`: sets option 12. -/
def withHostName (s : String) (r : DhcpReply) : DhcpReply := { r with opt12 := some s }

/-- `dhcpv4.WithNetmask`: sets option 1. -/
def withNetmask (m : List Nat) (r : DhcpReply) : DhcpReply := { r with opt1 := some m }

/-- `dhcpv4.WithRouter`: sets option 3. -/
def withRouter (ip : IPv4) (r : DhcpReply) : DhcpReply := { r with opt3 := some ip }

/-- Applies a list of `dhcpv4.Modifier`s in order, as
`dhcpv4.NewReplyFromRequest(m, mods...)` does. -/
def applyMods (mods : List (DhcpReply → DhcpReply)) (r : DhcpReply) : DhcpReply :=
  mods.foldl (fun acc f => f acc) r

/-- The option builder `Server.setDHCPOpts` (src/otel_test.go embedded
option.go, lines 840-871): always lease time and yiaddr, then each
optional `DhcpRec` field guarded by its non-zero / non-empty check, in
source order. -/
def setDHCPOpts (d : DhcpRec) : List (DhcpReply → DhcpReply) :=
  [withLeaseTime d.leaseTime, withYourIP d.ipAddress]
    ++ (if 0 < d.nameServers.length then [withDNS d.nameServers] else [])
    ++ (if 0 < d.domainSearch.length then [withDomainSearchList d.domainSearch] else [])
    ++ (if 0 < d.ntpServers.length then [withNTPServers d.ntpServers] else [])
    ++ (match d.broadcastAddress with
        | some b => [withBroadcastAddress b]
        | none => [])
    ++ (if d.domainName ≠ "" then [withDomainName d.domainName] else [])
    ++ (if d.hostname ≠ "" then [withHostName d.hostname] else [])
    ++ (if 0 < d.subnetMask.length then [withNetmask d.subnetMask] else [])
    ++ (match d.defaultGateway with
        | some g => [withRouter g]
        | none => [])

/-- The netboot classifier `Server.isNetbootClient` (src/handler.go lines
145-194; identical in src/handler/reservation/handler.go lines 168-218):
message type must be DISCOVER or REQUEST; option 60 must be present and
start with "PXEClient" or "HTTPClient"; options 93 and 94 must be present;
option 97 must be absent, zero-length, or 17 bytes starting with 0. -/
def isNetbootClient (m : DhcpRequest) : Bool :=
  if m.messageType ≠ msgDiscover ∧ m.messageType ≠ msgRequest then false
  else if m.opt60 = none then false
  else if !(strStarts (m.opt60.getD "") "PXEClient"
            || strStarts (m.opt60.getD "") "HTTPClient") then false
  else if m.opt93 = none then false
  else if m.opt94 = none then false
  else
    let guid := m.opt97.getD []
    if guid.length = 0 then true
    else if guid.length = 17 then
      if guid.headD 1 != 0 then false else true
    else false

/-- The architecture codes for which `iana.Arch.String()` in the
insomniacslk/dhcp library has a name (every other code renders as
"unknown"): the RFC 4578 / IANA processor-architecture codes 0-11 and the
HTTP-boot codes 15, 16, 18, 19. -/
def knownArchCodes : List Nat := [0, 1, 2, 3, 4, 5, 6, 7, 8, 9, 10, 11, 15, 16, 18, 19]

/-- Whether `iana.Arch.String()` yields a known name, i.e. whether
`strings.Contains(elem.String(), "unknown")` is false. -/
def isKnownArch (a : Nat) : Bool := knownArchCodes.contains a

/-- The `arch` helper (src/otel_test.go embedded option.go, lines
962-986): the first option-93 entry whose name is known, else the sentinel
255. -/
def archOf (m : DhcpRequest) : Nat :=
  let fwt := m.opt93.getD []
  if fwt.length = 0 then 255
  else
    match fwt.find? (fun e => isKnownArch e) with
    | some a => a
    | none => 255

/-- The fixed `ArchToBootFile` map (src/otel_test.go embedded option.go,
lines 806-825): architecture code to iPXE binary filename. -/
def archToBootFile (a : Nat) : Option String :=
  if a = 0 ∨ a = 1 ∨ a = 2 ∨ a = 3 ∨ a = 4 ∨ a = 5 then some "undionly.kpxe"
  else if a = 6 ∨ a = 9 ∨ a = 8 ∨ a = 7 ∨ a = 15 ∨ a = 16 then some "ipxe.efi"
  else if a = 10 ∨ a = 11 ∨ a = 18 ∨ a = 19 ∨ a = 41 then some "snp.efi"
  else none

/-- One lower-case hexadecimal digit character: 0-9 then a-f. -/
def hexDigitChar (n : Nat) : Char :=
  if n < 10 then Char.ofNat (48 + n) else Char.ofNat (87 + n)

/-- Two-character lower-case hex of one byte (Go `hex.EncodeToString` on a
single byte, as used by `TraceID.String` and `TraceFlags.String`). -/
def byteHex (b : Nat) : String := String.mk [hexDigitChar (b / 16 % 16), hexDigitChar (b % 16)]

/-- Lower-case hex of a byte list. -/
def bytesHex (l : List Nat) : String := String.join (l.map byteHex)

/-- The OTEL filename decoration applied by `bootfileAndNextServer` when
`OTELEnabled` (src/otel_test.go embedded option.go, lines 929-935):
`bin-00-<traceID>-<spanID>-<traceFlags>` in hex. -/
def otelDecorate (sc : SpanCtx) (bin : String) : String :=
  bin ++ "-00-" ++ bytesHex (List.ofFn sc.traceID) ++ "-" ++ bytesHex (List.ofFn sc.spanID)
    ++ "-" ++ byteHex (if sc.sampled then 1 else 0)

/-- The binary traceparent encoder `binaryTpFromContext` (src/otel_test.go
embedded option.go, lines 991-1010; identical `TraceparentFromContext` in
src/otel/otel.go lines 274-293): version byte 0x00, the 16 trace-id
bytes, the 8 span-id bytes, then 0x01 if sampled else 0x00. -/
def binaryTp (sc : SpanCtx) : List Nat :=
  0 :: (List.ofFn sc.traceID ++ (List.ofFn sc.spanID ++ [if sc.sampled then 1 else 0]))

/-- The chainload decider `Server.bootfileAndNextServer` (src/otel_test.go
embedded option.go, lines 926-960): OTEL decoration of the binary name,
then the first matching rule of R1 (Tinkerbell / custom user class), R2
(option 60 HTTPClient), R3 (iPXE user class), R4 (default).  The second
component is the next-server IP; `none` models the nil `net.IP` left by
rule R1. -/
def bootfileAndNextServer (s : ServerCfg) (sc : SpanCtx) (uClass opt60 bin : String)
    (tftp : IPPort) (ipxe : UrlRec) (iscript : Option UrlRec) : String × Option IPv4 :=
  let bin := if s.otelEnabled then otelDecorate sc bin else bin
  if uClass = "Tinkerbell" ∨ (s.userClass ≠ "" ∧ uClass = s.userClass) then
    ((match iscript with
      | some u => u.str
      | none => "/no-ipxe-script-defined"), none)
  else if opt60 = "HTTPClient" then
    (ipxe.str ++ "/" ++ bin, some ((parseIPv4 ipxe.host).getD ip0))
  else if uClass = "iPXE" then
    ("tftp://" ++ tftp.str ++ "/" ++ bin, some tftp.ip)
  else
    (bin, some tftp.ip)

/-- The netboot modifier `Server.setNetworkBootOpts` (src/otel_test.go
embedded option.go, lines 884-921): echo option 60 as "HTTPClient" when
the request's option 60 starts with "HTTPClient"; set the boot file name
to "/netboot-not-allowed" and siaddr to 0.0.0.0; then, when netboot is
allowed and the architecture is in `archToBootFile`, overwrite them with
the chainload decision and attach option 43 with sub-options 6 = 0x08 and
69 = the binary traceparent. -/
def setNetworkBootOpts (s : ServerCfg) (sc : SpanCtx) (m : DhcpRequest) (n : NetbootRec)
    (d : DhcpReply) : DhcpReply :=
  let echo := match m.opt60 with
    | some v => strStarts v "HTTPClient"
    | none => false
  let opt60 := if echo then "HTTPClient" else ""
  let d := if echo then { d with opt60 := some "HTTPClient" } else d
  let d := { d with bootFileName := "/netboot-not-allowed", siaddr := some ip0 }
  if n.allowNetboot then
    match archToBootFile (archOf m) with
    | none => d
    | some bin =>
      let uClass := m.opt77.getD ""
      let iscript := match n.ipxeScriptURL with
        | some u => some u
        | none => s.ipxeScriptURL
      let bfns := bootfileAndNextServer s sc uClass opt60 bin
        s.ipxeBinServerTFTP s.ipxeBinServerHTTP iscript
      { d with bootFileName := bfns.1, siaddr := bfns.2, opt43 := some ([8], binaryTp sc) }
  else d

/-- The reply assembly `Server.updateMsg` (src/handler.go lines 117-134;
identical in src/handler/reservation/handler.go lines 136-154): message
type, option 54 and siaddr from `IPAddr`, the `DhcpRec` options, then the
netboot modifier when netboot is enabled and the request is a netboot
client. -/
def updateMsg (s : ServerCfg) (sc : SpanCtx) (m : DhcpRequest) (d : DhcpRec) (n : NetbootRec)
    (mt : Nat) : DhcpReply :=
  applyMods
    ([withMessageType mt, withServerIdentifier s.ipAddr, withServerIP s.ipAddr]
      ++ setDHCPOpts d
      ++ (if s.netbootEnabled && isNetbootClient m then [setNetworkBootOpts s sc m n] else []))
    emptyReply

/-- The dispatcher `Server.handleFunc` (src/handler.go lines 28-84;
identical `Handle` in src/handler/reservation/handler.go lines 44-110):
DISCOVER and REQUEST produce a reply (OFFER / ACK) when the backend read
succeeds; RELEASE and every other message type return without writing.
`backend` is the outcome of `Backend.Read` (`none` models any error). -/
def handleFunc (s : ServerCfg) (sc : SpanCtx) (backend : Option (DhcpRec × NetbootRec))
    (m : DhcpRequest) : Option DhcpReply :=
  if m.messageType = msgDiscover then
    match backend with
    | none => none
    | some dn => some (updateMsg s sc m dn.1 dn.2 msgOffer)
  else if m.messageType = msgRequest then
    match backend with
    | none => none
    | some dn => some (updateMsg s sc m dn.1 dn.2 msgAck)
  else if m.messageType = msgRelease then
    none
  else
    none

/-- The REQUEST path of the draft dispatcher `Server.handleRequest`
(src/unnamed/part_008, lines 91-127): the reply skeleton sets option 54
from `s.Listener.UDPAddr().IP` (line 114) while siaddr comes from
`s.IPAddr`, and the netboot modifier is guarded only by `NetbootEnabled`.
The per-record option modifiers are modelled with `setDHCPOpts`; the
draft's own variant differs from it only on empty optional fields, which
no theorem below touches. -/
def handleRequestP8 (s : ServerCfg) (sc : SpanCtx) (backend : Option (DhcpRec × NetbootRec))
    (m : DhcpRequest) : Option DhcpReply :=
  match backend with
  | none => none
  | some dn =>
    some (applyMods
      ([withMessageType msgAck, withServerIdentifier s.listener.ip, withServerIP s.ipAddr]
        ++ setDHCPOpts dn.1
        ++ (if s.netbootEnabled then [setNetworkBootOpts s sc m dn.2] else []))
      emptyReply)

/-! ## Helper lemmas -/

theorem applyMods_nil (r : DhcpReply) : applyMods [] r = r := rfl

theorem applyMods_cons (f : DhcpReply → DhcpReply) (fs : List (DhcpReply → DhcpReply))
    (r : DhcpReply) : applyMods (f :: fs) r = applyMods fs (f r) := rfl

theorem applyMods_append (xs ys : List (DhcpReply → DhcpReply)) (r : DhcpReply) :
    applyMods (xs ++ ys) r = applyMods ys (applyMods xs r) := by
  simp [applyMods, List.foldl_append]

theorem applyMods_dnsSeg (c : Prop) [Decidable c] (l : List IPv4) (r : DhcpReply) :
    applyMods (if c then [withDNS l] else []) r = { r with opt6 := if c then some l else r.opt6 } := by
  by_cases h : c <;> simp [h, applyMods, withDNS]

theorem applyMods_searchSeg (c : Prop) [Decidable c] (l : List String) (r : DhcpReply) :
    applyMods (if c then [withDomainSearchList l] else []) r
      = { r with opt119 := if c then some l else r.opt119 } := by
  by_cases h : c <;> simp [h, applyMods, withDomainSearchList]

theorem applyMods_ntpSeg (c : Prop) [Decidable c] (l : List IPv4) (r : DhcpReply) :
    applyMods (if c then [withNTPServers l] else []) r
      = { r with opt42 := if c then some l else r.opt42 } := by
  by_cases h : c <;> simp [h, applyMods, withNTPServers]

theorem applyMods_domainSeg (c : Prop) [Decidable c] (s : String) (r : DhcpReply) :
    applyMods (if c then [withDomainName s] else []) r
      = { r with opt15 := if c then some s else r.opt15 } := by
  by_cases h : c <;> simp [h, applyMods, withDomainName]

theorem applyMods_hostSeg (c : Prop) [Decidable c] (s : String) (r : DhcpReply) :
    applyMods (if c then [withHostName s] else []) r
      = { r with opt12 := if c then some s else r.opt12 } := by
  by_cases h : c <;> simp [h, applyMods, withHostName]

theorem applyMods_maskSeg (c : Prop) [Decidable c] (l : List Nat) (r : DhcpReply) :
    applyMods (if c then [withNetmask l] else []) r
      = { r with opt1 := if c then some l else r.opt1 } := by
  by_cases h : c <;> simp [h, applyMods, withNetmask]

theorem applyMods_domainSegFlip (s : String) (r : DhcpReply) :
    applyMods (if s = "" then [] else [withDomainName s]) r
      = { r with opt15 := if s = "" then r.opt15 else some s } := by
  by_cases h : s = "" <;> simp [h, applyMods, withDomainName]

theorem applyMods_hostSegFlip (s : String) (r : DhcpReply) :
    applyMods (if s = "" then [] else [withHostName s]) r
      = { r with opt12 := if s = "" then r.opt12 else some s } := by
  by_cases h : s = "" <;> simp [h, applyMods, withHostName]

set_option maxHeartbeats 1000000 in
/-- Full effect of the option-builder modifier list on an arbitrary reply:
each guarded option is set exactly when its guard holds, lease time and
yiaddr are always set, and every other field is untouched. -/
theorem applyMods_setDHCPOpts (d : DhcpRec) (r : DhcpReply) :
    applyMods (setDHCPOpts d) r =
      { r with
        opt51 := some d.leaseTime
        yiaddr := some d.ipAddress
        opt6 := if 0 < d.nameServers.length then some d.nameServers else r.opt6
        opt119 := if 0 < d.domainSearch.length then some d.domainSearch else r.opt119
        opt42 := if 0 < d.ntpServers.length then some d.ntpServers else r.opt42
        opt28 := match d.broadcastAddress with
          | some b => some b
          | none => r.opt28
        opt15 := if d.domainName ≠ "" then some d.domainName else r.opt15
        opt12 := if d.hostname ≠ "" then some d.hostname else r.opt12
        opt1 := if 0 < d.subnetMask.length then some d.subnetMask else r.opt1
        opt3 := match d.defaultGateway with
          | some g => some g
          | none => r.opt3 } := by
  rcases d with ⟨mac, ip, sm, dg, ns, hn, dn, ba, ntp, lt, ds⟩
  rcases ba with _ | b <;> rcases dg with _ | g <;>
    simp [setDHCPOpts, applyMods_append, applyMods_cons, applyMods_nil,
      applyMods_dnsSeg, applyMods_searchSeg, applyMods_ntpSeg, applyMods_domainSeg,
      applyMods_hostSeg, applyMods_maskSeg, applyMods_domainSegFlip, applyMods_hostSegFlip,
      withLeaseTime, withYourIP, withBroadcastAddress, withRouter]

theorem guidCheck_iff (g : List Nat) :
    (if g.length = 0 then true
     else if g.length = 17 then (if g.headD 1 != 0 then false else true)
     else false) = true
   ↔ (g.length = 0 ∨ (g.length = 17 ∧ g.head? = some 0)) := by
  rcases g with _ | ⟨a, t⟩
  · simp
  · by_cases h17 : (a :: t).length = 17
    · by_cases ha : a = 0 <;> simp [h17, ha]
    · simp [h17]

theorem guid17_head (g : List Nat) :
    (g.length = 17 ∧ g.head?.getD 1 = 0) ↔ (g.length = 17 ∧ g.head? = some 0) := by
  cases g <;> simp

/-! ## Claim theorems -/

set_option maxHeartbeats 1000000 in
/-- C6: for every `DhcpRec`, the option builder sets yiaddr from the record's
IP address and option 51 from its lease time on every reply, and adds each of
options 1, 3, 6, 12, 15, 28, 42 and 119 exactly when the corresponding field
is non-zero / non-empty, omitting the option when the field is a zero IP,
empty slice, empty string, or length-zero mask. -/
theorem setDHCPOpts_fields (d : DhcpRec) :
    (applyMods (setDHCPOpts d) emptyReply).yiaddr = some d.ipAddress ∧
    (applyMods (setDHCPOpts d) emptyReply).opt51 = some d.leaseTime ∧
    (applyMods (setDHCPOpts d) emptyReply).opt1
      = (if d.subnetMask = [] then none else some d.subnetMask) ∧
    (applyMods (setDHCPOpts d) emptyReply).opt3 = d.defaultGateway ∧
    (applyMods (setDHCPOpts d) emptyReply).opt6
      = (if d.nameServers = [] then none else some d.nameServers) ∧
    (applyMods (setDHCPOpts d) emptyReply).opt12
      = (if d.hostname = "" then none else some d.hostname) ∧
    (applyMods (setDHCPOpts d) emptyReply).opt15
      = (if d.domainName = "" then none else some d.domainName) ∧
    (applyMods (setDHCPOpts d) emptyReply).opt28 = d.broadcastAddress ∧
    (applyMods (setDHCPOpts d) emptyReply).opt42
      = (if d.ntpServers = [] then none else some d.ntpServers) ∧
    (applyMods (setDHCPOpts d) emptyReply).opt119
      = (if d.domainSearch = [] then none else some d.domainSearch) := by
  rcases d with ⟨mac, ip, sm, dg, ns, hn, dn, ba, ntp, lt, ds⟩
  rw [applyMods_setDHCPOpts]
  rcases ba with _ | b <;> rcases dg with _ | g <;>
    simp [emptyReply, List.length_pos]

set_option maxHeartbeats 4000000 in
/-- C2: the netboot classifier returns true iff all five conditions hold:
message type DISCOVER or REQUEST; option 60 present and starting with
"PXEClient" or "HTTPClient"; option 93 present; option 94 present; and
option 97 absent, zero-length, or exactly 17 bytes with first byte 0 (so a
17-byte option 97 with non-zero first byte, or any other non-zero length,
is rejected). -/
theorem isNetbootClient_iff (m : DhcpRequest) :
    isNetbootClient m = true ↔
      ((m.messageType = msgDiscover ∨ m.messageType = msgRequest) ∧
       (∃ v, m.opt60 = some v ∧
         (strStarts v "PXEClient" = true ∨ strStarts v "HTTPClient" = true)) ∧
       m.opt93 ≠ none ∧
       m.opt94 ≠ none ∧
       (m.opt97 = none ∨ ∃ g, m.opt97 = some g ∧
         (g.length = 0 ∨ (g.length = 17 ∧ g.head? = some 0)))) := by
  rcases m with ⟨mt, o60, o77, o93, o94, o97⟩
  by_cases hmt : mt ≠ msgDiscover ∧ mt ≠ msgRequest
  · have hor : ¬ (mt = msgDiscover ∨ mt = msgRequest) := by tauto
    simp [isNetbootClient, hmt, hor]
  · have hor : mt = msgDiscover ∨ mt = msgRequest := by tauto
    cases o60 with
    | none => simp [isNetbootClient, hmt]
    | some v =>
      simp only [Option.some.injEq, ne_eq, exists_eq_left']
      cases hp : strStarts v "PXEClient" <;> cases hq : strStarts v "HTTPClient" <;>
        cases o93 <;> cases o94 <;> cases o97 <;>
        simp [isNetbootClient, hmt, hp, hq, guidCheck_iff, guid17_head, hor]

theorem empty_ne_httpClientStr : ("" : String) = "HTTPClient" ↔ False := by
  simp only [iff_false]
  decide

theorem echo_eq_getD (o : Option String) :
    (match o with
      | some v => strStarts v "HTTPClient"
      | none => false)
      = strStarts (o.getD "") "HTTPClient" := by
  cases o <;> rfl

theorem setNetworkBootOpts_opt60 (s : ServerCfg) (sc : SpanCtx) (m : DhcpRequest)
    (n : NetbootRec) (d : DhcpReply) :
    (setNetworkBootOpts s sc m n d).opt60 =
      if strStarts (m.opt60.getD "") "HTTPClient" = true then some "HTTPClient" else d.opt60 := by
  unfold setNetworkBootOpts
  rw [echo_eq_getD]
  cases he : strStarts (m.opt60.getD "") "HTTPClient" <;>
    cases hA : n.allowNetboot <;>
    cases hB : archToBootFile (archOf m) <;>
    simp [he, hA, hB]

theorem updateMsg_netboot_eq (s : ServerCfg) (sc : SpanCtx) (m : DhcpRequest) (d : DhcpRec)
    (n : NetbootRec) (mt : Nat) (h1 : s.netbootEnabled = true) (h2 : isNetbootClient m = true) :
    updateMsg s sc m d n mt
      = setNetworkBootOpts s sc m n (applyMods (setDHCPOpts d)
          { emptyReply with opt53 := some mt, opt54 := some s.ipAddr, siaddr := some s.ipAddr }) := by
  simp [updateMsg, h1, h2, applyMods_append, applyMods_cons, applyMods_nil, applyMods,
    withMessageType, withServerIdentifier, withServerIP, emptyReply]

theorem setNetworkBootOpts_noArch (s : ServerCfg) (sc : SpanCtx) (m : DhcpRequest)
    (n : NetbootRec) (d : DhcpReply) (hArch : archToBootFile (archOf m) = none) :
    (setNetworkBootOpts s sc m n d).bootFileName = "/netboot-not-allowed" ∧
    (setNetworkBootOpts s sc m n d).siaddr = some ip0 ∧
    (setNetworkBootOpts s sc m n d).opt43 = d.opt43 := by
  unfold setNetworkBootOpts
  cases he : (match m.opt60 with
    | some v => strStarts v "HTTPClient"
    | none => false) <;>
    cases hA : n.allowNetboot <;> simp [he, hA, hArch]

theorem netbootClient_msgType (m : DhcpRequest) (h : isNetbootClient m = true) :
    m.messageType = msgDiscover ∨ m.messageType = msgRequest := by
  by_cases hmt : m.messageType ≠ msgDiscover ∧ m.messageType ≠ msgRequest
  · unfold isNetbootClient at h
    rw [if_pos hmt] at h
    cases h
  · tauto

/-- C1: for every netboot-classified request whose option 60 starts with
"HTTPClient" and whose user class is neither "Tinkerbell" nor the
configured custom user class, the chainload decider sets the boot file to
the HTTP iPXE binary server URL followed by "/" and the
architecture-selected binary, and next-server to the IPv4 parsed from that
URL's host, or 0.0.0.0 when the host does not parse. -/
theorem setNetworkBootOpts_httpclient (s : ServerCfg) (sc : SpanCtx) (m : DhcpRequest)
    (n : NetbootRec) (d : DhcpReply)
    (hOtel : s.otelEnabled = false)
    (hNC : isNetbootClient m = true)
    (hAllow : n.allowNetboot = true)
    (v : String) (h60 : m.opt60 = some v) (hPre : strStarts v "HTTPClient" = true)
    (bin : String) (hBin : archToBootFile (archOf m) = some bin)
    (hTink : m.opt77.getD "" ≠ "Tinkerbell")
    (hCustom : ¬ (s.userClass ≠ "" ∧ m.opt77.getD "" = s.userClass)) :
    (setNetworkBootOpts s sc m n d).bootFileName = s.ipxeBinServerHTTP.str ++ "/" ++ bin ∧
    (setNetworkBootOpts s sc m n d).siaddr
      = some ((parseIPv4 s.ipxeBinServerHTTP.host).getD ip0) := by
  unfold setNetworkBootOpts
  rw [h60]
  simp only [hPre, hAllow, hBin, if_true]
  unfold bootfileAndNextServer
  rw [hOtel]
  simp [hTink, hCustom]

/-- C4: for every netboot-classified request whose option 60 does not
start with "HTTPClient" and whose user class is neither "Tinkerbell" nor
the configured custom user class, the chainload decider returns
"tftp://{tftp-server}/{binary}" with next-server the TFTP server's IP when
the user class is "iPXE", and the bare binary filename with the same
next-server otherwise. -/
theorem setNetworkBootOpts_tftp_rules (s : ServerCfg) (sc : SpanCtx) (m : DhcpRequest)
    (n : NetbootRec) (d : DhcpReply)
    (hOtel : s.otelEnabled = false)
    (hNC : isNetbootClient m = true)
    (hAllow : n.allowNetboot = true)
    (hNoHttp : strStarts (m.opt60.getD "") "HTTPClient" = false)
    (bin : String) (hBin : archToBootFile (archOf m) = some bin)
    (hTink : m.opt77.getD "" ≠ "Tinkerbell")
    (hCustom : ¬ (s.userClass ≠ "" ∧ m.opt77.getD "" = s.userClass)) :
    (m.opt77.getD "" = "iPXE" →
      (setNetworkBootOpts s sc m n d).bootFileName
        = "tftp://" ++ s.ipxeBinServerTFTP.str ++ "/" ++ bin ∧
      (setNetworkBootOpts s sc m n d).siaddr = some s.ipxeBinServerTFTP.ip) ∧
    (m.opt77.getD "" ≠ "iPXE" →
      (setNetworkBootOpts s sc m n d).bootFileName = bin ∧
      (setNetworkBootOpts s sc m n d).siaddr = some s.ipxeBinServerTFTP.ip) := by
  unfold setNetworkBootOpts
  rw [echo_eq_getD, hNoHttp]
  simp only [hAllow, hBin, Bool.false_eq_true, if_false]
  unfold bootfileAndNextServer
  rw [hOtel]
  constructor
  · intro hIpxe
    rw [hIpxe] at hCustom
    simp [hTink, hCustom, hIpxe, empty_ne_httpClientStr]
  · intro hIpxe
    simp [hTink, hCustom, hIpxe, empty_ne_httpClientStr]

/-- C10: for every netboot-classified request matching chainload rule R1
(user class "Tinkerbell" or the configured custom user class), the boot
file is the backend record's iPXE script URL when that per-client URL is
set, and falls back to the server-configured default, or
"/no-ipxe-script-defined" when both are unset, only when the per-client
URL is nil. -/
theorem setNetworkBootOpts_tinkerbell_script (s : ServerCfg) (sc : SpanCtx) (m : DhcpRequest)
    (n : NetbootRec) (d : DhcpReply)
    (hNC : isNetbootClient m = true)
    (hAllow : n.allowNetboot = true)
    (bin : String) (hBin : archToBootFile (archOf m) = some bin)
    (hR1 : m.opt77.getD "" = "Tinkerbell" ∨ (s.userClass ≠ "" ∧ m.opt77.getD "" = s.userClass)) :
    (setNetworkBootOpts s sc m n d).bootFileName =
      (match n.ipxeScriptURL with
       | some u => u.str
       | none =>
         match s.ipxeScriptURL with
         | some u => u.str
         | none => "/no-ipxe-script-defined") := by
  unfold setNetworkBootOpts
  simp only [hAllow, hBin, if_true]
  unfold bootfileAndNextServer
  rcases hR1 with h | h
  · cases hu : n.ipxeScriptURL <;> cases hs : s.ipxeScriptURL <;> simp [h, hu, hs]
  · cases hu : n.ipxeScriptURL <;> cases hs : s.ipxeScriptURL <;> simp [h, hu, hs]

/-- C3: for every request to which netboot options are applied, the
reply's option 60 is exactly "HTTPClient" iff the request's option 60
starts with "HTTPClient"; in every other case the reply carries no
option 60. -/
theorem updateMsg_opt60_echo (s : ServerCfg) (sc : SpanCtx) (m : DhcpRequest) (d : DhcpRec)
    (n : NetbootRec) (mt : Nat) (h1 : s.netbootEnabled = true) (h2 : isNetbootClient m = true) :
    ((updateMsg s sc m d n mt).opt60 = some "HTTPClient" ∨ (updateMsg s sc m d n mt).opt60 = none) ∧
    ((updateMsg s sc m d n mt).opt60 = some "HTTPClient" ↔
      ∃ v, m.opt60 = some v ∧ strStarts v "HTTPClient" = true) := by
  rw [updateMsg_netboot_eq s sc m d n mt h1 h2, setNetworkBootOpts_opt60]
  have hbase : (applyMods (setDHCPOpts d)
      { emptyReply with opt53 := some mt, opt54 := some s.ipAddr, siaddr := some s.ipAddr }).opt60 = none := by
    rw [applyMods_setDHCPOpts]
    rfl
  rw [hbase]
  cases ho : m.opt60 with
  | none => simp [show strStarts "" "HTTPClient" = false from rfl]
  | some v => cases hsw : strStarts v "HTTPClient" <;> simp [hsw]

/-- C5: for every netboot-classified request with netboot allowed whose
option 93 architecture is not in the architecture-to-binary table
(including the sentinel 255), the dispatcher still sends the reply, with
boot file name "/netboot-not-allowed", siaddr 0.0.0.0, and no option
43. -/
theorem handleFunc_arch_unknown (s : ServerCfg) (sc : SpanCtx) (rec : DhcpRec)
    (n : NetbootRec) (m : DhcpRequest)
    (hE : s.netbootEnabled = true) (hNC : isNetbootClient m = true)
    (hAllow : n.allowNetboot = true) (hArch : archToBootFile (archOf m) = none) :
    (handleFunc s sc (some (rec, n)) m).isSome = true ∧
    (handleFunc s sc (some (rec, n)) m).map DhcpReply.bootFileName
      = some "/netboot-not-allowed" ∧
    (handleFunc s sc (some (rec, n)) m).map DhcpReply.siaddr = some (some ip0) ∧
    (handleFunc s sc (some (rec, n)) m).map DhcpReply.opt43 = some none := by
  have hbase : (applyMods (setDHCPOpts rec)
      { emptyReply with opt53 := some msgOffer, opt54 := some s.ipAddr, siaddr := some s.ipAddr }).opt43 = none := by
    rw [applyMods_setDHCPOpts]
    rfl
  have hbase2 : (applyMods (setDHCPOpts rec)
      { emptyReply with opt53 := some msgAck, opt54 := some s.ipAddr, siaddr := some s.ipAddr }).opt43 = none := by
    rw [applyMods_setDHCPOpts]
    rfl
  rcases netbootClient_msgType m hNC with h | h
  · have hh : handleFunc s sc (some (rec, n)) m = some (updateMsg s sc m rec n msgOffer) := by
      simp [handleFunc, h, msgDiscover, msgRequest]
    rw [hh, updateMsg_netboot_eq s sc m rec n msgOffer hE hNC]
    rcases setNetworkBootOpts_noArch s sc m n (applyMods (setDHCPOpts rec) { emptyReply with opt53 := some msgOffer, opt54 := some s.ipAddr, siaddr := some s.ipAddr }) hArch with ⟨hb, hs, h43⟩
    simp [hb, hs, h43, hbase]
  · have hh : handleFunc s sc (some (rec, n)) m = some (updateMsg s sc m rec n msgAck) := by
      simp [handleFunc, h, msgDiscover, msgRequest]
    rw [hh, updateMsg_netboot_eq s sc m rec n msgAck hE hNC]
    rcases setNetworkBootOpts_noArch s sc m n (applyMods (setDHCPOpts rec) { emptyReply with opt53 := some msgAck, opt54 := some s.ipAddr, siaddr := some s.ipAddr }) hArch with ⟨hb, hs, h43⟩
    simp [hb, hs, h43, hbase2]

/-- C8: the binary traceparent is always exactly 26 bytes: byte 0 is 0x00,
bytes 1-16 are the trace id, bytes 17-24 are the span id, and byte 25 is
0x01 iff the span context is sampled; with no active span the buffer is 26
zero bytes. -/
theorem binaryTp_layout (sc : SpanCtx) :
    (binaryTp sc).length = 26 ∧
    (binaryTp sc).head? = some 0 ∧
    (∀ i : Fin 16, (binaryTp sc)[(i : Nat) + 1]? = some (sc.traceID i)) ∧
    (∀ i : Fin 8, (binaryTp sc)[(i : Nat) + 17]? = some (sc.spanID i)) ∧
    ((binaryTp sc)[25]? = some 1 ↔ sc.sampled = true) ∧
    binaryTp zeroSpanCtx = List.replicate 26 0 := by
  refine ⟨by simp [binaryTp], rfl, ?_, ?_, ?_, by decide⟩
  · intro i
    rw [binaryTp, List.getElem?_cons_succ]
    simp [List.getElem?_append, List.getElem?_ofFn, List.ofFnNthVal, i.isLt, -List.ofFn_succ]
  · intro i
    have h17 : (i : Nat) + 17 = ((i : Nat) + 16) + 1 := by omega
    rw [binaryTp, h17, List.getElem?_cons_succ]
    simp [List.getElem?_append, List.getElem?_ofFn, List.ofFnNthVal, i.isLt, -List.ofFn_succ]
  · rw [show (25 : Nat) = 24 + 1 from rfl, binaryTp, List.getElem?_cons_succ]
    cases h : sc.sampled <;> simp [List.getElem?_append]

/-- C9: the dispatcher never produces an outbound datagram for a RELEASE,
nor for any message type other than DISCOVER, REQUEST or RELEASE. -/
theorem handleFunc_drops_release_unknown (s : ServerCfg) (sc : SpanCtx)
    (backend : Option (DhcpRec × NetbootRec)) (m : DhcpRequest)
    (h : m.messageType = msgRelease ∨
      (m.messageType ≠ msgDiscover ∧ m.messageType ≠ msgRequest ∧ m.messageType ≠ msgRelease)) :
    handleFunc s sc backend m = none := by
  rcases h with h | ⟨h1, h2, h3⟩
  · simp [handleFunc, h, msgRelease, msgDiscover, msgRequest]
  · simp [handleFunc, h1, h2, h3]

/-! ## Concrete inputs for witnesses, from the test scenarios of the
repository (server 127.0.0.1, TFTP 192.168.6.5:69, HTTP
http://192.168.1.34:8080, script http://localhost:8181/auto.ipxe). -/

def cfgW : ServerCfg :=
  ⟨⟨127, 0, 0, 1⟩, ⟨⟨0, 0, 0, 0⟩, 67⟩, ⟨⟨192, 168, 6, 5⟩, 69⟩,
   ⟨"http://192.168.1.34:8080", "192.168.1.34:8080"⟩,
   some ⟨"http://localhost:8181/auto.ipxe", "localhost:8181"⟩, true, "", false⟩

def recW : DhcpRec :=
  ⟨[1, 2, 3, 4, 5, 6], ⟨192, 168, 1, 100⟩, [255, 255, 255, 0], some ⟨192, 168, 1, 1⟩,
   [⟨1, 1, 1, 1⟩], "test-host", "mydomain.com", some ⟨192, 168, 1, 255⟩,
   [⟨132, 163, 96, 2⟩], 60, ["mydomain.com"]⟩

def netW : NetbootRec := ⟨true, none⟩

def netOverrideW : NetbootRec := ⟨true, some ⟨"http://override:8181/auto.ipxe", "override:8181"⟩⟩

def reqHttpW : DhcpRequest :=
  ⟨msgDiscover, some "HTTPClient:Arch:00016:UNDI:003001", none, some [19], some [1, 2, 3], none⟩

def reqPxeW : DhcpRequest :=
  ⟨msgDiscover, some "PXEClient:Arch:00000:UNDI:002001", none, some [0], some [1], none⟩

def reqTinkW : DhcpRequest :=
  ⟨msgRequest, some "PXEClient:Arch:00009:UNDI:003001", some "Tinkerbell", some [9], some [1], none⟩

def reqUnknownArchW : DhcpRequest :=
  ⟨msgDiscover, some "PXEClient:Arch:00000:UNDI:002001", none, some [33], some [1], none⟩

def reqReleaseW : DhcpRequest := ⟨msgRelease, none, none, none, none, none⟩

def reqPlainW : DhcpRequest := ⟨msgRequest, none, none, none, none, none⟩

/-- Witness for C1 at the UEFI HTTP-boot scenario: EFI_ARM64_HTTP (19)
selects snp.efi; the host "192.168.1.34:8080" does not parse as an IPv4
address, so next-server is 0.0.0.0. -/
theorem setNetworkBootOpts_httpclient_witness :
    (setNetworkBootOpts cfgW zeroSpanCtx reqHttpW netW emptyReply).bootFileName
      = "http://192.168.1.34:8080/snp.efi" ∧
    (setNetworkBootOpts cfgW zeroSpanCtx reqHttpW netW emptyReply).siaddr = some ip0 := by
  have h := setNetworkBootOpts_httpclient cfgW zeroSpanCtx reqHttpW netW emptyReply rfl
    (by decide) rfl "HTTPClient:Arch:00016:UNDI:003001" rfl (by decide) "snp.efi" (by decide)
    (by decide) (by decide)
  exact ⟨h.1.trans (by decide), h.2.trans (by decide)⟩

/-- Witness for C4 at the first-contact PXE scenario: INTEL_X86PC (0)
selects undionly.kpxe; no user class, so the bare filename and the TFTP
server IP are returned. -/
theorem setNetworkBootOpts_tftp_rules_witness :
    (setNetworkBootOpts cfgW zeroSpanCtx reqPxeW netW emptyReply).bootFileName
      = "undionly.kpxe" ∧
    (setNetworkBootOpts cfgW zeroSpanCtx reqPxeW netW emptyReply).siaddr
      = some ⟨192, 168, 6, 5⟩ := by
  have h := (setNetworkBootOpts_tftp_rules cfgW zeroSpanCtx reqPxeW netW emptyReply rfl
    (by decide) rfl (by decide) "undionly.kpxe" (by decide) (by decide) (by decide)).2 (by decide)
  exact ⟨h.1, h.2.trans (by decide)⟩

/-- Witness for C10: a Tinkerbell-classed request with a per-client iPXE
script URL boots that URL, not the server default. -/
theorem setNetworkBootOpts_tinkerbell_script_witness :
    (setNetworkBootOpts cfgW zeroSpanCtx reqTinkW netOverrideW emptyReply).bootFileName
      = "http://override:8181/auto.ipxe" := by
  have h := setNetworkBootOpts_tinkerbell_script cfgW zeroSpanCtx reqTinkW netOverrideW emptyReply
    (by decide) rfl "ipxe.efi" (by decide) (Or.inl (by decide))
  exact h.trans (by decide)

/-- Witness for C3: the HTTPClient request receives a reply whose option
60 is exactly "HTTPClient". -/
theorem updateMsg_opt60_echo_witness :
    (updateMsg cfgW zeroSpanCtx reqHttpW recW netW msgOffer).opt60 = some "HTTPClient" :=
  (updateMsg_opt60_echo cfgW zeroSpanCtx reqHttpW recW netW msgOffer rfl (by decide)).2.mpr
    ⟨"HTTPClient:Arch:00016:UNDI:003001", rfl, by decide⟩

/-- Witness for C5: a netboot client with unknown architecture code 33
still receives a reply, with the netboot-not-allowed boot file, zero
siaddr, and no option 43. -/
theorem handleFunc_arch_unknown_witness :
    (handleFunc cfgW zeroSpanCtx (some (recW, netW)) reqUnknownArchW).isSome = true ∧
    (handleFunc cfgW zeroSpanCtx (some (recW, netW)) reqUnknownArchW).map DhcpReply.bootFileName
      = some "/netboot-not-allowed" ∧
    (handleFunc cfgW zeroSpanCtx (some (recW, netW)) reqUnknownArchW).map DhcpReply.siaddr
      = some (some ip0) ∧
    (handleFunc cfgW zeroSpanCtx (some (recW, netW)) reqUnknownArchW).map DhcpReply.opt43
      = some none :=
  handleFunc_arch_unknown cfgW zeroSpanCtx recW netW reqUnknownArchW rfl (by decide) rfl
    (by decide)

/-- Witness for C9: a RELEASE produces no reply. -/
theorem handleFunc_drops_release_unknown_witness :
    handleFunc cfgW zeroSpanCtx (some (recW, netW)) reqReleaseW = none :=
  handleFunc_drops_release_unknown cfgW zeroSpanCtx (some (recW, netW)) reqReleaseW (Or.inl rfl)

set_option maxHeartbeats 1000000 in
/-- C7: in the draft dispatcher of src/unnamed/part_008, `handleRequest`
sets option 54 from the listener address (0.0.0.0 here) instead of the
configured server IP 127.0.0.1, contradicting invariant I5, the
`Server.IPAddr` doc comment, and `handleDiscover` in the same file; yiaddr
is still the record's IP. -/
theorem handleRequestP8_opt54_divergence :
    (handleRequestP8 cfgW zeroSpanCtx (some (recW, netW)) reqPlainW).map DhcpReply.opt54
      = some (some ip0) ∧
    (handleRequestP8 cfgW zeroSpanCtx (some (recW, netW)) reqPlainW).map DhcpReply.yiaddr
      = some (some ⟨192, 168, 1, 100⟩) ∧
    cfgW.ipAddr ≠ ip0 := by
  refine ⟨?_, ?_, by decide⟩ <;> decide

theorem setNetworkBootOpts_yiaddr (s : ServerCfg) (sc : SpanCtx) (m : DhcpRequest)
    (n : NetbootRec) (d : DhcpReply) :
    (setNetworkBootOpts s sc m n d).yiaddr = d.yiaddr := by
  unfold setNetworkBootOpts
  cases he : (match m.opt60 with
    | some v => strStarts v "HTTPClient"
    | none => false) <;>
    cases hA : n.allowNetboot <;>
    cases hB : archToBootFile (archOf m) <;>
    simp [he, hA, hB]

theorem setNetworkBootOpts_opt54 (s : ServerCfg) (sc : SpanCtx) (m : DhcpRequest)
    (n : NetbootRec) (d : DhcpReply) :
    (setNetworkBootOpts s sc m n d).opt54 = d.opt54 := by
  unfold setNetworkBootOpts
  cases he : (match m.opt60 with
    | some v => strStarts v "HTTPClient"
    | none => false) <;>
    cases hA : n.allowNetboot <;>
    cases hB : archToBootFile (archOf m) <;>
    simp [he, hA, hB]

/-- The repository's own dispatcher (`handler.go` and the reservation
handler) satisfies the invariant the part_008 draft breaks: every reply it
assembles has yiaddr from the record's IP address and option 54 from the
configured server IP. -/
theorem updateMsg_yiaddr_opt54 (s : ServerCfg) (sc : SpanCtx) (m : DhcpRequest) (d : DhcpRec)
    (n : NetbootRec) (mt : Nat) :
    (updateMsg s sc m d n mt).yiaddr = some d.ipAddress ∧
    (updateMsg s sc m d n mt).opt54 = some s.ipAddr := by
  unfold updateMsg
  rw [applyMods_append, applyMods_append,
    show applyMods [withMessageType mt, withServerIdentifier s.ipAddr, withServerIP s.ipAddr] emptyReply = { emptyReply with opt53 := some mt, opt54 := some s.ipAddr, siaddr := some s.ipAddr } from rfl,
    applyMods_setDHCPOpts]
  cases hcond : (s.netbootEnabled && isNetbootClient m)
  · simp [hcond, applyMods]
  · simp [hcond, applyMods_cons, applyMods_nil,
      setNetworkBootOpts_yiaddr, setNetworkBootOpts_opt54]
